import Mathlib

/-! Verification of the LED name-badge display simulator
(`mock-led-display.py` and `api.py`).

The Python source is shallowly embedded: the pixel-matrix decoder
(`TextRenderer.render_text`), the display state and its transitions
(`DisplayState`, `LEDDisplayGUI._process_commands`, `LEDDisplayGUI._animate`),
the renderer placement logic (`LEDDisplayGUI._update_display`) and the
display-string validator (`_validate_display_string` and the
`/display-text` route) become Lean functions.  The external glyph
rasterizer `SimpleTextAndIcons.bitmap` is treated as a parameter: an
oracle `String → Option (List Nat × Nat)` returning the column-major
byte buffer and the column count, or `none` when it raises.
-/

set_option autoImplicit false

namespace LedDisplay

/-- Constant `LED_ROWS = 11` from the source configuration section. -/
def LED_ROWS : Nat := 11

/-- Constant `LED_COLS = 44` from the source configuration section (the viewport width). -/
def LED_COLS : Nat := 44

/-! Section: Pixel Matrix Decoder (`TextRenderer.render_text`).

The Python inner loops set `rows[r][c*8+bit] = 1` when
`buf[c*LED_ROWS + r] & (1 << (7 - bit))` is non-zero.  Row `r` of the
result is therefore the concatenation, over column groups `c`, of the
8 MSB-first bits of byte `buf[c*LED_ROWS + r]`. -/

/-- The 8 pixels contributed by one buffer byte, MSB-first
(`byte_val & (1 << (7 - bit))` in the source). -/
def byteRow (byte : Nat) : List Bool :=
  (List.range 8).map (fun bit => Nat.testBit byte (7 - bit))

/-- Row `r` of the decoded grid: bytes `buf[c*LED_ROWS + r]` for `c < cols`,
each expanded MSB-first. -/
def decodeRow (buf : List Nat) (cols r : Nat) : List Bool :=
  ((List.range cols).map (fun c => byteRow (buf.getD (c * LED_ROWS + r) 0))).flatten

/-- The decoded `LED_ROWS × (cols*8)` grid.  For `cols = 0` this is
`LED_ROWS` rows of zero width, exactly the source's special case
`[[0] * 0 for _ in range(LED_ROWS)]`. -/
def renderBitmap (buf : List Nat) (cols : Nat) : List (List Bool) :=
  (List.range LED_ROWS).map (fun r => decodeRow buf cols r)

/-- Function `TextRenderer.render_text`: the rasterizer outcome is passed in
(`none` models `creator.bitmap(text)` raising, in which case the
source's `except` clause returns `[]`). -/
def render_text (rast : Option (List Nat × Nat)) : List (List Bool) :=
  match rast with
  | none => []
  | some (buf, cols) => renderBitmap buf cols

/-! Decoder lemmas. -/

theorem map_range_getD {α : Type} (f : Nat → α) (n i : Nat) (d : α) (h : i < n) :
    ((List.range n).map f).getD i d = f i := by
  rw [List.getD_eq_getElem?_getD, List.getElem?_map, List.getElem?_range h]
  rfl

theorem byteRow_length (byte : Nat) : (byteRow byte).length = 8 := by
  simp [byteRow]

theorem byteRow_getD (byte bit : Nat) (hbit : bit < 8) :
    (byteRow byte).getD bit false = Nat.testBit byte (7 - bit) :=
  map_range_getD _ _ _ _ hbit

/-- Indexing into a concatenation of blocks of length 8. -/
theorem join_blocks_getD (ls : List (List Bool)) (h8 : ∀ l ∈ ls, l.length = 8)
    (c bit : Nat) (hbit : bit < 8) (hc : c < ls.length) :
    ls.flatten.getD (c * 8 + bit) false = (ls.getD c []).getD bit false := by
  induction ls generalizing c with
  | nil => simp at hc
  | cons hd tl ih =>
    have hhd : hd.length = 8 := h8 hd (List.mem_cons_self hd tl)
    cases c with
    | zero =>
      simp only [List.flatten_cons, Nat.zero_mul, Nat.zero_add, List.getD_cons_zero]
      rw [List.getD_eq_getElem?_getD, List.getElem?_append_left (by omega),
        ← List.getD_eq_getElem?_getD]
    | succ c =>
      simp only [List.flatten_cons, List.getD_cons_succ]
      rw [List.getD_eq_getElem?_getD, List.getElem?_append_right (by
        rw [hhd]; calc 8 ≤ (c + 1) * 8 := by omega
          _ ≤ (c + 1) * 8 + bit := by omega)]
      have harith : (c + 1) * 8 + bit - hd.length = c * 8 + bit := by rw [hhd]; ring_nf; omega
      rw [harith, ← List.getD_eq_getElem?_getD]
      exact ih (fun l hl => h8 l (List.mem_cons_of_mem hd hl)) c
        (Nat.lt_of_succ_lt_succ (by simpa using hc))

theorem decodeRow_length (buf : List Nat) (cols r : Nat) :
    (decodeRow buf cols r).length = cols * 8 := by
  rw [decodeRow, List.length_flatten, List.map_map]
  have h : ((List.range cols).map (List.length ∘ fun c => byteRow (buf.getD (c * LED_ROWS + r) 0)))
      = (List.range cols).map (fun _ => 8) := by
    apply List.map_congr_left
    intro a _
    simp [byteRow_length]
  rw [h, List.map_const', List.sum_replicate, List.length_range, smul_eq_mul]

theorem decodeRow_getD (buf : List Nat) (cols r c bit : Nat) (hc : c < cols) (hbit : bit < 8) :
    (decodeRow buf cols r).getD (c * 8 + bit) false
      = Nat.testBit (buf.getD (c * LED_ROWS + r) 0) (7 - bit) := by
  rw [decodeRow, join_blocks_getD _ (by
      intro l hl
      obtain ⟨a, _, rfl⟩ := List.mem_map.mp hl
      exact byteRow_length _) c bit hbit (by simpa using hc)]
  rw [map_range_getD _ _ _ _ hc, byteRow_getD _ _ hbit]

theorem renderBitmap_length (buf : List Nat) (cols : Nat) :
    (renderBitmap buf cols).length = LED_ROWS := by
  simp [renderBitmap]

theorem renderBitmap_getD (buf : List Nat) (cols r : Nat) (hr : r < LED_ROWS) :
    (renderBitmap buf cols).getD r [] = decodeRow buf cols r :=
  map_range_getD _ _ _ _ hr

/-! Section: Display State (`DisplayState` and `LEDDisplayGUI._process_commands`). -/

/-- The mutable display state of `DisplayState.__init__`. -/
structure DisplayState where
  text : String
  text_bitmap : List (List Bool)
  text_width : Nat
  mode : String
  speed : Nat
  brightness : Nat
  color : String
  scroll_position : Nat
  is_running : Bool
  deriving DecidableEq, Repr

/-- Initial state, from `DisplayState.__init__`. -/
def DisplayState.init : DisplayState :=
  { text := "", text_bitmap := [], text_width := 0, mode := "left", speed := 4,
    brightness := 100, color := "red", scroll_position := 0, is_running := false }

/-- Method `DisplayState.clear`. -/
def DisplayState.clear (s : DisplayState) : DisplayState :=
  { s with
    text := "", text_bitmap := [], text_width := 0,
    scroll_position := 0, is_running := false }

/-- The `'update'` branch of `LEDDisplayGUI._process_commands` (with a `text`
field present).  `rast` is the outcome of `creator.bitmap(text)` inside
`TextRenderer.render_text` (`none` when it raises). -/
def applyUpdate (s : DisplayState) (text : String) (rast : Option (List Nat × Nat)) :
    DisplayState :=
  let bitmap := render_text rast
  { s with
    text := text,
    text_bitmap := bitmap,
    text_width := match bitmap with | [] => 0 | row0 :: _ => row0.length,
    scroll_position := 0,
    is_running := true,
    mode := "left", speed := 4, brightness := 100, color := "red" }

/-- Commands carried by the command channel (only the shapes the producers
enqueue: `{'type': 'update', 'data': {'text': ...}}` and `{'type': 'clear'}`). -/
inductive Command where
  | update (text : String)
  | clear
  deriving DecidableEq, Repr

/-- One command consumed by `_process_commands`.  The external rasterizer is
a parameter `rast : String → Option (List Nat × Nat)`. -/
def applyCommand (rast : String → Option (List Nat × Nat)) (s : DisplayState) :
    Command → DisplayState
  | .update text => applyUpdate s text (rast text)
  | .clear => s.clear

/-- The scroll step of `LEDDisplayGUI._animate`: when running and the text is
non-empty, `scroll_position += 1`, wrapping to `0` when it exceeds
`text_width + LED_COLS`. -/
def animateTick (s : DisplayState) : DisplayState :=
  if s.is_running ∧ s.text ≠ "" then
    let sp := s.scroll_position + 1
    { s with scroll_position := if sp > s.text_width + LED_COLS then 0 else sp }
  else s

/-! Section: renderer placement (`LEDDisplayGUI._update_display`).

The Python loop computes, for every viewport cell, an integer source
column `text_col` (possibly negative, hence `Int` here), checks
`row < len(text_bitmap) and 0 <= text_col < len(text_bitmap[row])`, and
lights the cell iff `text_bitmap[row][text_col] == 1`.  `//` is Python
floor division, `Int.fdiv` here. -/

/-- Whether viewport cell `(row, col)` is lit, following
`_update_display` exactly (an empty `text` turns every LED off). -/
def pixelOn (s : DisplayState) (row col : Nat) : Bool :=
  if s.text = "" then false
  else
    let text_col : Int :=
      if s.mode = "static" then
        (col : Int) - Int.fdiv ((LED_COLS : Int) - (s.text_width : Int)) 2
      else
        (col : Int) + (s.scroll_position : Int) - (LED_COLS : Int)
    if row < s.text_bitmap.length ∧ 0 ≤ text_col ∧
        text_col < ((s.text_bitmap.getD row []).length : Int) then
      (s.text_bitmap.getD row []).getD text_col.toNat false
    else false

/-- The full frame painted onto the canvas by one `_update_display` call. -/
def renderFrame (s : DisplayState) : List (List Bool) :=
  (List.range LED_ROWS).map (fun row => (List.range LED_COLS).map (fun col => pixelOn s row col))

/-- One iteration of the `_process_commands` drain loop: apply the command
and immediately repaint (`self._update_display()` runs after every command). -/
def processOne (rast : String → Option (List Nat × Nat))
    (sys : DisplayState × List (List Bool)) (c : Command) :
    DisplayState × List (List Bool) :=
  let s := applyCommand rast sys.1 c
  (s, renderFrame s)

/-- Draining the whole command queue in one tick of `_process_commands`. -/
def drain (rast : String → Option (List Nat × Nat))
    (sys : DisplayState × List (List Bool)) (cmds : List Command) :
    DisplayState × List (List Bool) :=
  cmds.foldl (processOne rast) sys

/-! Section: display-string validator (`_validate_display_string`).

The Python code extracts the `:name:` tokens with
`re.findall(r':([^:]*):', text)` (a left-to-right, non-overlapping scan)
and removes exactly those matched spans with `re.sub(r':[^:]*:', '', text)`.
`scanAux` performs the same scan in one pass: outside a token a `:` opens
one; inside a token the accumulated characters run to the next `:`, which
closes it; a `:` never followed by another `:` matches nothing, so it and
the characters after it stay literal.  The builtin icon names
(`creator.bitmap_named.keys()`), the supported characters
(`creator.charmap`) and the filesystem (`os.path.exists`) are external,
so they are parameters. -/

/-- One left-to-right pass implementing `re.findall(r':([^:]*):', text)`
(first component: the token names, in order) and
`re.sub(r':[^:]*:', '', text)` (second component: the characters left
over).  The first argument is `some acc` while inside a potential token
whose name so far is `acc` reversed. -/
def scanAux : Option (List Char) → List Char → List (List Char) × List Char
  | none, [] => ([], [])
  | some acc, [] => ([], ':' :: acc.reverse)
  | none, c :: rest =>
    if c = ':' then scanAux (some []) rest
    else
      let p := scanAux none rest
      (p.1, c :: p.2)
  | some acc, c :: rest =>
    if c = ':' then
      let p := scanAux none rest
      (acc.reverse :: p.1, p.2)
    else scanAux (some (c :: acc)) rest

/-- Token names and residual (non-token) characters of a display string. -/
def scanTokens (l : List Char) : List (List Char) × List Char :=
  scanAux none l

/-- The exception taxonomy of `_validate_display_string`
(`ValueError`, `FileNotFoundError`, `KeyError`, `KeyError`). -/
inductive ValidationError where
  | imageNotFound (name : String)
  | unknownIcon (name : String)
  | unsupportedChar (c : Char)
  deriving DecidableEq, Repr

/-- Whether `re.match(r'^[0-9]+$', name)` succeeds: one or more ASCII
digits, optionally followed by one final newline (Python's `$` also
matches just before a trailing `'\n'`). -/
def numericMatch (name : List Char) : Bool :=
  (!name.isEmpty && name.all (fun c => '0' ≤ c && c ≤ '9'))
    || (name.getLast? == some '\n'
        && !name.dropLast.isEmpty && name.dropLast.all (fun c => '0' ≤ c && c ≤ '9'))

/-- The per-token checks of the first loop of `_validate_display_string`:
empty name (the `::` escape) and numeric names are skipped, a name with a
`.` must be an existing file, anything else must be a builtin icon name. -/
def tokenCheck (builtin : List String) (fileExists : String → Bool) (name : List Char) :
    Except ValidationError Unit :=
  if name = [] then .ok ()
  else if numericMatch name then .ok ()
  else if name.contains '.' then
    if fileExists (String.mk name) then .ok ()
    else .error (.imageNotFound (String.mk name))
  else if String.mk name ∈ builtin then .ok ()
  else .error (.unknownIcon (String.mk name))

/-- The token loop: the first failing token raises. -/
def checkTokens (builtin : List String) (fileExists : String → Bool) :
    List (List Char) → Except ValidationError Unit
  | [] => .ok ()
  | name :: rest =>
    match tokenCheck builtin fileExists name with
    | .ok _ => checkTokens builtin fileExists rest
    | .error e => .error e

/-- The character loop over `text_no_tokens`: `'\n'` and `'\r'` are always
allowed, every other character must be in the supported set. -/
def checkChars (supported : List Char) : List Char → Except ValidationError Unit
  | [] => .ok ()
  | c :: rest =>
    if c = '\n' ∨ c = '\r' then checkChars supported rest
    else if c ∈ supported then checkChars supported rest
    else .error (.unsupportedChar c)

/-- Function `_validate_display_string`: token loop first, then character loop. -/
def validate_display_string (builtin : List String) (supported : List Char)
    (fileExists : String → Bool) (text : String) : Except ValidationError Unit :=
  match checkTokens builtin fileExists (scanTokens text.data).1 with
  | .error e => .error e
  | .ok _ => checkChars supported (scanTokens text.data).2

/-- The `POST /display-text` route `update_display` of the mock server:
missing `text` field or failed validation answer `400` and leave the
command channel unchanged; on success the update command is enqueued and
`200` is returned. -/
def update_display (builtin : List String) (supported : List Char)
    (fileExists : String → Bool) (q : List Command) (body : Option String) :
    Nat × List Command :=
  match body with
  | none => (400, q)
  | some text =>
    match validate_display_string builtin supported fileExists text with
    | .error _ => (400, q)
    | .ok _ => (200, q ++ [Command.update text])

end LedDisplay

namespace LedDisplay

/-! Claim theorems. -/

/-- C1.  Decode correctness: for a raster buffer with
`len(buffer) = cols * ROWS`, the decoded grid has `LED_ROWS` rows, each of
width `cols * 8`; pixel `(r, c*8+bit)` is on iff bit `7 - bit` of the byte
at index `c*LED_ROWS + r` is set (MSB-first); and `cols = 0` yields
`LED_ROWS` rows of zero width rather than an error. -/
theorem decode_correct (buf : List Nat) (cols : Nat) (hlen : buf.length = cols * LED_ROWS) :
    (renderBitmap buf cols).length = LED_ROWS
    ∧ (∀ r, r < LED_ROWS → ((renderBitmap buf cols).getD r []).length = cols * 8)
    ∧ (∀ r c bit, r < LED_ROWS → c < cols → bit < 8 →
        (((renderBitmap buf cols).getD r []).getD (c * 8 + bit) false = true
          ↔ Nat.testBit (buf.getD (c * LED_ROWS + r) 0) (7 - bit) = true))
    ∧ (cols = 0 → renderBitmap buf cols = List.replicate LED_ROWS []) := by
  refine ⟨renderBitmap_length buf cols, ?_, ?_, ?_⟩
  · intro r hr
    rw [renderBitmap_getD buf cols r hr, decodeRow_length]
  · intro r c bit hr hc hbit
    rw [renderBitmap_getD buf cols r hr, decodeRow_getD buf cols r c bit hc hbit]
  · intro h0
    subst h0
    rw [renderBitmap]
    have hrow : ∀ r : Nat, decodeRow buf 0 r = [] := by
      intro r
      rfl
    simp [hrow]

/-- Witness for C1, at a buffer holding a single fully-lit 8×11 column
(eleven `0xFF` bytes, one column group): the theorem instantiates, and the
decoded grid is on at columns `0..7` of every row and has no other
columns. -/
theorem decode_correct_witness :
    ((renderBitmap (List.replicate 11 255) 1).length = LED_ROWS
      ∧ (∀ r, r < LED_ROWS → ((renderBitmap (List.replicate 11 255) 1).getD r []).length = 1 * 8)
      ∧ (∀ r c bit, r < LED_ROWS → c < 1 → bit < 8 →
          (((renderBitmap (List.replicate 11 255) 1).getD r []).getD (c * 8 + bit) false = true
            ↔ Nat.testBit ((List.replicate 11 (255 : Nat)).getD (c * LED_ROWS + r) 0)
                (7 - bit) = true))
      ∧ (1 = 0 → renderBitmap (List.replicate 11 255) 1 = List.replicate LED_ROWS []))
    ∧ (∀ r, r < LED_ROWS → ∀ x, x < 8 →
        ((renderBitmap (List.replicate 11 255) 1).getD r []).getD x false = true) :=
  ⟨decode_correct (List.replicate 11 255) 1 (by decide), by decide⟩

end LedDisplay

namespace LedDisplay

/-- Previous display state used to refute C2: text `"A"` with a lit
11×8 grid already installed. -/
def prevState : DisplayState :=
  { text := "A", text_bitmap := List.replicate 11 (List.replicate 8 true),
    text_width := 8, mode := "left", speed := 4, brightness := 100,
    color := "red", scroll_position := 3, is_running := true }

/-- C2 counterexample.  The claim says an `Update` whose rasterization
fails leaves the previous display state unchanged; but
`TextRenderer.render_text` swallows the exception and returns `[]`, so
`_process_commands` replaces the text with the new one and installs an
empty bitmap of width 0. -/
theorem raster_failure_counterexample :
    applyUpdate prevState "B" none ≠ prevState
    ∧ (applyUpdate prevState "B" none).text = "B"
    ∧ (applyUpdate prevState "B" none).text_bitmap = []
    ∧ (applyUpdate prevState "B" none).text_width = 0
    ∧ prevState.text = "A"
    ∧ prevState.text_width = 8 := by
  refine ⟨?_, rfl, rfl, rfl, rfl, rfl⟩
  intro h
  exact absurd (congrArg DisplayState.text h) (by decide)

/-- C2 amended.  An `Update` whose rasterization fails does not crash and
does not propagate the error, but it does not keep the previous state
either: it installs the new text with an empty bitmap, width 0, scroll
position 0, running `true`, and the fixed defaults for the cosmetic
fields.  The previous text, grid and width are all replaced (the display
goes blank). -/
theorem raster_failure_blanks_display (s : DisplayState) (text : String) :
    applyUpdate s text none =
      { text := text, text_bitmap := [], text_width := 0, mode := "left",
        speed := 4, brightness := 100, color := "red", scroll_position := 0,
        is_running := true } := rfl

/-- C3.  Scroll-position invariant and wraparound: any text update and any
clear reset `scroll_position` to 0; a tick preserves
`scroll_position ≤ text_width + LED_COLS`; and one tick from
`scroll_position = text_width + LED_COLS` (while animating) wraps to 0
instead of exceeding the bound. -/
theorem scroll_invariant_wraparound (s : DisplayState) (text : String)
    (rast : Option (List Nat × Nat)) :
    (applyUpdate s text rast).scroll_position = 0
    ∧ s.clear.scroll_position = 0
    ∧ (s.scroll_position ≤ s.text_width + LED_COLS →
        (animateTick s).scroll_position ≤ (animateTick s).text_width + LED_COLS)
    ∧ (s.scroll_position = s.text_width + LED_COLS → s.is_running = true → s.text ≠ "" →
        (animateTick s).scroll_position = 0) := by
  refine ⟨rfl, rfl, ?_, ?_⟩
  · intro hle
    rw [animateTick]
    split
    · simp only
      split
      · exact Nat.zero_le _
      · omega
    · exact hle
  · intro heq hrun htext
    rw [animateTick, if_pos ⟨hrun, htext⟩]
    simp only
    rw [if_pos (by omega)]

/-- Witness state for C3: animating at the wraparound bound
`scroll_position = text_width + LED_COLS = 45`. -/
def boundState : DisplayState :=
  { text := "A", text_bitmap := [List.replicate 8 true], text_width := 1,
    mode := "left", speed := 4, brightness := 100, color := "red",
    scroll_position := 45, is_running := true }

/-- Witness for C3 at `boundState`: the update and clear conclusions hold,
the invariant is preserved by the tick, and the tick wraps to 0. -/
theorem scroll_invariant_wraparound_witness :
    (applyUpdate boundState "Hi" (some ([], 0))).scroll_position = 0
    ∧ boundState.clear.scroll_position = 0
    ∧ (animateTick boundState).scroll_position
        ≤ (animateTick boundState).text_width + LED_COLS
    ∧ (animateTick boundState).scroll_position = 0 := by
  obtain ⟨h1, h2, h3, h4⟩ := scroll_invariant_wraparound boundState "Hi" (some ([], 0))
  exact ⟨h1, h2, h3 (by decide), h4 (by decide) (by decide) (by decide)⟩

end LedDisplay

namespace LedDisplay

/-- Well-formedness of the stored bitmap, satisfied by every bitmap the
code installs: either `LED_ROWS` rows or (after a `clear`, initially, or
after a failed rasterization) no rows; every row as wide as `text_width`;
and the width is 0 when there are no rows or the text is empty. -/
def GridWF (s : DisplayState) : Prop :=
  (s.text_bitmap.length = LED_ROWS ∨ s.text_bitmap = [])
  ∧ (∀ row ∈ s.text_bitmap, row.length = s.text_width)
  ∧ (s.text_bitmap = [] → s.text_width = 0)
  ∧ (s.text = "" → s.text_width = 0)

instance (s : DisplayState) : Decidable (GridWF s) := by
  unfold GridWF
  infer_instance

theorem getD_mem {α : Type} (l : List α) (i : Nat) (d : α) (h : i < l.length) :
    l.getD i d ∈ l := by
  rw [List.getD_eq_getElem l d h]
  exact List.getElem_mem h

/-- The guarded lookup shared by both placement branches of
`_update_display`, as an iff against the source-column condition of the
spec. -/
theorem placement_lookup (s : DisplayState) (row : Nat) (tc : Int)
    (hwf : GridWF s) (hbm : s.text_bitmap.length = LED_ROWS) (hrow : row < LED_ROWS) :
    ((if row < s.text_bitmap.length ∧ 0 ≤ tc ∧
          tc < ((s.text_bitmap.getD row []).length : Int) then
        (s.text_bitmap.getD row []).getD tc.toNat false
      else false) = true
      ↔ (0 ≤ tc ∧ tc < (s.text_width : Int)
          ∧ (s.text_bitmap.getD row []).getD tc.toNat false = true)) := by
  obtain ⟨-, hrows, -, -⟩ := hwf
  have hlen : (s.text_bitmap.getD row []).length = s.text_width :=
    hrows _ (getD_mem _ _ _ (by omega))
  rw [hlen]
  split
  · rename_i hcond
    exact ⟨fun hv => ⟨hcond.2.1, hcond.2.2, hv⟩, fun hv => hv.2.2⟩
  · rename_i hcond
    constructor
    · intro hv
      exact (Bool.false_ne_true hv).elim
    · intro hv
      exact absurd ⟨by omega, hv.1, hv.2.1⟩ hcond

/-- C4.  Left-scroll placement: in a non-`static` mode (the source's
`else` branch, i.e. `LEFT_SCROLL`), viewport cell `(row, col)` is lit iff
the source column `col + scroll_position - LED_COLS` lies in
`[0, text_width)` and the grid is true there; outside that range the cell
is off. -/
theorem left_scroll_placement (s : DisplayState) (row col : Nat)
    (hwf : GridWF s) (hmode : s.mode ≠ "static")
    (hrow : row < LED_ROWS) (hcol : col < LED_COLS) :
    (pixelOn s row col = true
      ↔ (0 ≤ (col : Int) + (s.scroll_position : Int) - (LED_COLS : Int)
          ∧ (col : Int) + (s.scroll_position : Int) - (LED_COLS : Int) < (s.text_width : Int)
          ∧ (s.text_bitmap.getD row []).getD
              (((col : Int) + (s.scroll_position : Int) - (LED_COLS : Int)).toNat)
              false = true)) := by
  rw [pixelOn]
  by_cases htext : s.text = ""
  · rw [if_pos htext]
    have hw : s.text_width = 0 := hwf.2.2.2 htext
    rw [hw]
    simp only [Bool.false_eq_true, false_iff]
    intro hv
    omega
  · rw [if_neg htext]
    simp only [if_neg hmode]
    rcases hwf.1 with hbm | hbm
    · exact placement_lookup s row _ hwf hbm hrow
    · have hw : s.text_width = 0 := hwf.2.2.1 hbm
      rw [hbm, hw]
      simp only [List.length_nil]
      rw [if_neg (by omega)]
      simp only [Bool.false_eq_true, false_iff]
      intro hv
      omega

/-- Witness state for C4: left-scrolling text of width 8, scroll position
46, so viewport column 5 maps to source column 7 (lit) and column 6 maps
to source column 8 (out of range). -/
def leftState : DisplayState :=
  { text := "A", text_bitmap := List.replicate 11 (List.replicate 8 true),
    text_width := 8, mode := "left", speed := 4, brightness := 100,
    color := "red", scroll_position := 46, is_running := true }

/-- Witness for C4 at `leftState`, viewport cell `(0, 5)`. -/
theorem left_scroll_placement_witness :
    (pixelOn leftState 0 5 = true
      ↔ (0 ≤ (5 : Int) + ((leftState.scroll_position : Nat) : Int) - (LED_COLS : Int)
          ∧ (5 : Int) + ((leftState.scroll_position : Nat) : Int) - (LED_COLS : Int)
              < (leftState.text_width : Int)
          ∧ (leftState.text_bitmap.getD 0 []).getD
              (((5 : Int) + ((leftState.scroll_position : Nat) : Int)
                - (LED_COLS : Int)).toNat) false = true))
    ∧ pixelOn leftState 0 5 = true
    ∧ pixelOn leftState 0 6 = false :=
  ⟨left_scroll_placement leftState 0 5 (by decide) (by decide) (by decide) (by decide),
    by decide, by decide⟩

/-- C5.  Static centering: in `static` mode, viewport cell `(row, col)` is
lit iff the source column `col - (LED_COLS - text_width) // 2` (Python
floor division, `Int.fdiv`) lies in `[0, text_width)` and the grid is true
there. -/
theorem static_centering (s : DisplayState) (row col : Nat)
    (hwf : GridWF s) (hmode : s.mode = "static")
    (hrow : row < LED_ROWS) (hcol : col < LED_COLS) :
    (pixelOn s row col = true
      ↔ (0 ≤ (col : Int) - Int.fdiv ((LED_COLS : Int) - (s.text_width : Int)) 2
          ∧ (col : Int) - Int.fdiv ((LED_COLS : Int) - (s.text_width : Int)) 2
              < (s.text_width : Int)
          ∧ (s.text_bitmap.getD row []).getD
              (((col : Int) - Int.fdiv ((LED_COLS : Int) - (s.text_width : Int)) 2).toNat)
              false = true)) := by
  rw [pixelOn]
  by_cases htext : s.text = ""
  · rw [if_pos htext]
    have hw : s.text_width = 0 := hwf.2.2.2 htext
    rw [hw]
    simp only [Bool.false_eq_true, false_iff]
    intro hv
    omega
  · rw [if_neg htext]
    simp only [if_pos hmode]
    rcases hwf.1 with hbm | hbm
    · exact placement_lookup s row _ hwf hbm hrow
    · have hw : s.text_width = 0 := hwf.2.2.1 hbm
      rw [hbm, hw]
      simp only [List.length_nil]
      rw [if_neg (by omega)]
      simp only [Bool.false_eq_true, false_iff]
      intro hv
      omega

/-- Witness state for C5: static text of width 16 whose only lit source
pixel is row 0, column 0. -/
def staticState : DisplayState :=
  { text := "A",
    text_bitmap :=
      (true :: List.replicate 15 false) :: List.replicate 10 (List.replicate 16 false),
    text_width := 16, mode := "static", speed := 4, brightness := 100,
    color := "red", scroll_position := 0, is_running := true }

/-- Witness for C5 at `staticState`, viewport cell `(0, 14)`: with width
16 the centering offset is `(44-16)/2 = 14`, so the leftmost lit source
column renders at viewport column 14 (and column 13 stays off). -/
theorem static_centering_witness :
    (pixelOn staticState 0 14 = true
      ↔ (0 ≤ (14 : Int) - Int.fdiv ((LED_COLS : Int) - (staticState.text_width : Int)) 2
          ∧ (14 : Int) - Int.fdiv ((LED_COLS : Int) - (staticState.text_width : Int)) 2
              < (staticState.text_width : Int)
          ∧ (staticState.text_bitmap.getD 0 []).getD
              (((14 : Int) - Int.fdiv ((LED_COLS : Int)
                - (staticState.text_width : Int)) 2).toNat) false = true))
    ∧ pixelOn staticState 0 14 = true
    ∧ pixelOn staticState 0 13 = false :=
  ⟨static_centering staticState 0 14 (by decide) (by decide) (by decide) (by decide),
    by decide, by decide⟩

end LedDisplay

namespace LedDisplay

/-- States reachable by the render loop consuming a queue of commands,
starting from the initial display state. -/
def runCommands (rast : String → Option (List Nat × Nat)) (cmds : List Command) :
    DisplayState :=
  cmds.foldl (applyCommand rast) DisplayState.init

/-- A command whose consumption respects the idle-width claim: a clear, or
an update whose rasterization succeeds and returns a positive column count
exactly when the text is non-empty. -/
def GoodCmd (rast : String → Option (List Nat × Nat)) : Command → Prop
  | .clear => True
  | .update t => ∃ buf cols, rast t = some (buf, cols) ∧ (0 < cols ↔ t ≠ "")

/-- C6 counterexample.  The claim `width == 0 ⇔ text == ""` fails on the
reachable state produced by an update whose rasterization fails: the text
becomes `"B"` while the installed width is 0. -/
theorem idle_width_counterexample :
    ¬ (((runCommands (fun _ => none) [Command.update "B"]).text_width = 0)
      ↔ ((runCommands (fun _ => none) [Command.update "B"]).text = "")) := by
  intro h
  exact absurd (h.mp rfl) (by decide)

theorem applyCommand_good_inv (rast : String → Option (List Nat × Nat))
    (s : DisplayState) (c : Command) (hc : GoodCmd rast c) :
    ((applyCommand rast s c).text_width = 0 ↔ (applyCommand rast s c).text = "") := by
  cases c with
  | clear => simp [applyCommand, DisplayState.clear]
  | update t =>
    obtain ⟨buf, cols, hr, hcols⟩ := hc
    simp only [applyCommand, applyUpdate, hr, render_text]
    have hne : renderBitmap buf cols = decodeRow buf cols 0 :: ((List.range 10).map
        (fun r => decodeRow buf cols (r + 1))) := by
      rw [renderBitmap]
      rw [show LED_ROWS = 11 from rfl]
      rw [List.range_succ_eq_map]
      simp [List.map_map]
    rw [hne]
    simp only [decodeRow_length]
    constructor
    · intro hw
      by_contra htext
      have : 0 < cols := hcols.mpr htext
      omega
    · intro htext
      by_cases h0 : cols = 0
      · simp [h0]
      · exact absurd htext (by simpa using (hcols.mp (by omega)))

theorem runCommands_inv (rast : String → Option (List Nat × Nat)) (cmds : List Command)
    (s : DisplayState) (hs : s.text_width = 0 ↔ s.text = "")
    (hgood : ∀ c ∈ cmds, GoodCmd rast c) :
    ((cmds.foldl (applyCommand rast) s).text_width = 0
      ↔ (cmds.foldl (applyCommand rast) s).text = "") := by
  induction cmds generalizing s with
  | nil => exact hs
  | cons c rest ih =>
    rw [List.foldl_cons]
    exact ih _ (applyCommand_good_inv rast s c (hgood c (List.mem_cons_self c rest)))
      (fun d hd => hgood d (List.mem_cons_of_mem c hd))

/-- C6 amended.  In every state reachable by clears and by updates whose
rasterization succeeds with a positive column count exactly for non-empty
text, `text_width = 0` iff `text = ""`.  (An update whose rasterization
fails — or returns zero columns for non-empty text — breaks the
equivalence, as the counterexample shows.) -/
theorem idle_width_invariant (rast : String → Option (List Nat × Nat))
    (cmds : List Command) (hgood : ∀ c ∈ cmds, GoodCmd rast c) :
    ((runCommands rast cmds).text_width = 0 ↔ (runCommands rast cmds).text = "") :=
  runCommands_inv rast cmds DisplayState.init (by constructor <;> intro <;> rfl) hgood

/-- Rasterizer used by the C6 witness: one lit column group for any
non-empty text, zero columns for the empty text. -/
def rastW (t : String) : Option (List Nat × Nat) :=
  if t = "" then some ([], 0) else some (List.replicate 11 255, 1)

/-- Witness for C6 at a concrete queue: update to `"B"`, clear, update to
`"C"`, under `rastW`. -/
theorem idle_width_invariant_witness :
    ((runCommands rastW [Command.update "B", Command.clear, Command.update "C"]).text_width = 0
      ↔ (runCommands rastW [Command.update "B", Command.clear,
          Command.update "C"]).text = "") := by
  apply idle_width_invariant rastW
  intro c hc
  simp only [List.mem_cons, List.not_mem_nil, or_false] at hc
  rcases hc with rfl | rfl | rfl
  · exact ⟨List.replicate 11 255, 1, rfl, by simp⟩
  · exact trivial
  · exact ⟨List.replicate 11 255, 1, rfl, by simp⟩

end LedDisplay

namespace LedDisplay

/-- The token rule exactly as the claim states it (no empty-name escape):
a `:name:` token is valid when the name is numeric, or contains a `.` and
resolves to an existing image asset, or otherwise is a builtin icon
name. -/
def claimTokenOk (builtin : List String) (fileExists : String → Bool)
    (name : List Char) : Prop :=
  numericMatch name = true
    ∨ (if name.contains '.' = true then fileExists (String.mk name) = true
       else String.mk name ∈ builtin)

/-- The validation grammar exactly as the claim states it: every token
valid per `claimTokenOk` and every non-token character supported, with
line breaks always permitted. -/
def claimAccepts (builtin : List String) (supported : List Char)
    (fileExists : String → Bool) (text : String) : Prop :=
  (∀ name ∈ (scanTokens text.data).1, claimTokenOk builtin fileExists name)
    ∧ (∀ c ∈ (scanTokens text.data).2, c = '\n' ∨ c = '\r' ∨ c ∈ supported)

/-- The grammar amended by the one case the code adds: a token with an
empty name (the `::` escape) is always valid. -/
def amendedAccepts (builtin : List String) (supported : List Char)
    (fileExists : String → Bool) (text : String) : Prop :=
  (∀ name ∈ (scanTokens text.data).1, name = [] ∨ claimTokenOk builtin fileExists name)
    ∧ (∀ c ∈ (scanTokens text.data).2, c = '\n' ∨ c = '\r' ∨ c ∈ supported)

/-- C7 counterexample.  On the string `"::"` the validator succeeds (the
empty token name is skipped as an escape for a literal colon), but the
claim's grammar rejects it: the empty name is not numeric, has no `.`,
and is not a builtin icon name.  So "accepts iff every token is numeric
or an existing image or a builtin icon" is false as stated. -/
theorem validation_grammar_counterexample :
    validate_display_string ["heart"] ['H', 'i'] (fun _ => false) "::" = Except.ok ()
    ∧ ¬ claimAccepts ["heart"] ['H', 'i'] (fun _ => false) "::" := by
  constructor
  · rfl
  · intro h
    rcases h.1 [] (by decide) with hnum | hmem
    · exact absurd hnum (by decide)
    · rw [if_neg (by decide)] at hmem
      exact absurd hmem (by decide)

theorem tokenCheck_ok_iff (b : List String) (fe : String → Bool) (name : List Char) :
    tokenCheck b fe name = Except.ok () ↔ (name = [] ∨ claimTokenOk b fe name) := by
  rw [tokenCheck, claimTokenOk]
  split_ifs with h1 h2 h3 h4 h5 <;> simp_all

theorem checkTokens_ok_iff (b : List String) (fe : String → Bool) (l : List (List Char)) :
    checkTokens b fe l = Except.ok () ↔ ∀ name ∈ l, tokenCheck b fe name = Except.ok () := by
  induction l with
  | nil => simp [checkTokens]
  | cons n rest ih =>
    cases htc : tokenCheck b fe n with
    | ok u => cases u; simp [checkTokens, htc, ih]
    | error e => simp [checkTokens, htc]

theorem checkChars_ok_iff (sup : List Char) (l : List Char) :
    checkChars sup l = Except.ok () ↔ ∀ c ∈ l, (c = '\n' ∨ c = '\r' ∨ c ∈ sup) := by
  induction l with
  | nil => simp [checkChars]
  | cons c rest ih =>
    rw [checkChars]
    split_ifs with h1 h2
    · simp [ih, h1]
      intro _
      rcases h1 with h | h
      · exact Or.inl h
      · exact Or.inr (Or.inl h)
    · simp [ih, h2]
    · constructor
      · intro h
        simp at h
      · intro h
        rcases h c (List.mem_cons_self c rest) with hc | hc | hc
        · exact absurd (Or.inl hc) h1
        · exact absurd (Or.inr hc) h1
        · exact absurd hc h2

theorem validate_split (b : List String) (sup : List Char) (fe : String → Bool)
    (text : String) :
    validate_display_string b sup fe text = Except.ok ()
      ↔ (checkTokens b fe (scanTokens text.data).1 = Except.ok ()
          ∧ checkChars sup (scanTokens text.data).2 = Except.ok ()) := by
  rw [validate_display_string]
  cases ht : checkTokens b fe (scanTokens text.data).1 with
  | error e => simp [ht]
  | ok u => cases u; simp [ht]

/-- C7 amended.  The validator accepts a string iff every `:name:` token
has an empty name (the `::` escape the original claim misses), or a
numeric name (per the code's `^[0-9]+$` pattern), or a name with a `.`
naming an existing image asset, or otherwise a builtin icon name, and
every non-token character is supported, line breaks always permitted.  In
particular `"Hello :unknown_icon:"` is rejected with an icon-not-found
error whenever `unknown_icon` is not a builtin name, and `"Hi\n:0:"` is
accepted whenever `H` and `i` are supported characters. -/
theorem validation_grammar (b : List String) (sup : List Char) (fe : String → Bool) :
    (∀ text, validate_display_string b sup fe text = Except.ok ()
        ↔ amendedAccepts b sup fe text)
    ∧ ("unknown_icon" ∉ b →
        validate_display_string b sup fe "Hello :unknown_icon:"
          = Except.error (ValidationError.unknownIcon "unknown_icon"))
    ∧ ('H' ∈ sup → 'i' ∈ sup →
        validate_display_string b sup fe "Hi\n:0:" = Except.ok ()) := by
  refine ⟨?_, ?_, ?_⟩
  · intro text
    rw [validate_split, checkTokens_ok_iff, checkChars_ok_iff, amendedAccepts]
    constructor
    · intro ⟨htok, hch⟩
      exact ⟨fun n hn => (tokenCheck_ok_iff b fe n).mp (htok n hn), hch⟩
    · intro ⟨htok, hch⟩
      exact ⟨fun n hn => (tokenCheck_ok_iff b fe n).mpr (htok n hn), hch⟩
  · intro hb
    have htc : tokenCheck b fe ("unknown_icon".data)
        = Except.error (ValidationError.unknownIcon "unknown_icon") := by
      rw [tokenCheck]
      rw [if_neg (by decide), if_neg (by decide), if_neg (by decide), if_neg hb]
    rw [validate_display_string]
    have hscan : scanTokens ("Hello :unknown_icon:".data)
        = (["unknown_icon".data], "Hello ".data) := by rfl
    rw [hscan]
    simp [checkTokens, htc]
  · intro hH hi
    have hscan : scanTokens ("Hi\n:0:".data) = ([['0']], ['H', 'i', '\n']) := by rfl
    rw [validate_display_string, hscan]
    have htc : tokenCheck b fe ['0'] = Except.ok () := by
      rw [tokenCheck, if_neg (by decide), if_pos (by decide)]
    simp only [checkTokens, htc]
    rw [checkChars, if_neg (by decide), if_pos hH,
      checkChars, if_neg (by decide), if_pos hi,
      checkChars, if_pos (by decide), checkChars]

/-- Witness for C7 at concrete external sets (builtin icons `heart`,
supported characters `H` and `i`, no files on disk). -/
theorem validation_grammar_witness :
    validate_display_string ["heart"] ['H', 'i'] (fun _ => false) "Hi\n:0:" = Except.ok ()
    ∧ validate_display_string ["heart"] ['H', 'i'] (fun _ => false) "Hello :unknown_icon:"
        = Except.error (ValidationError.unknownIcon "unknown_icon")
    ∧ (validate_display_string ["heart"] ['H', 'i'] (fun _ => false) "::" = Except.ok ()
        ↔ amendedAccepts ["heart"] ['H', 'i'] (fun _ => false) "::") := by
  obtain ⟨h1, h2, h3⟩ := validation_grammar ["heart"] ['H', 'i'] (fun _ => false)
  exact ⟨h3 (by decide) (by decide), h2 (by decide), h1 "::"⟩

end LedDisplay

namespace LedDisplay

/-- C8.  Validation precedes enqueueing: `update_display` enqueues a
command iff validation of the text succeeds; when validation fails (or
the `text` field is missing) it answers 400 synchronously and the command
channel is unchanged, so the render loop only ever dequeues already-valid
commands. -/
theorem validation_precedes_enqueue (b : List String) (sup : List Char)
    (fe : String → Bool) (q : List Command) (text : String) :
    (validate_display_string b sup fe text = Except.ok () →
      update_display b sup fe q (some text) = (200, q ++ [Command.update text]))
    ∧ (validate_display_string b sup fe text ≠ Except.ok () →
      update_display b sup fe q (some text) = (400, q))
    ∧ update_display b sup fe q none = (400, q) := by
  refine ⟨?_, ?_, rfl⟩
  · intro h
    simp [update_display, h]
  · intro h
    cases hv : validate_display_string b sup fe text with
    | error e => simp [update_display, hv]
    | ok u => cases u; exact absurd hv h

/-- Witness for C8 with concrete external sets: a valid text is enqueued
with a 200 answer, an invalid one and a missing field answer 400 leaving
the channel empty. -/
theorem validation_precedes_enqueue_witness :
    update_display ["heart"] ['H', 'i'] (fun _ => false) [] (some "Hi")
      = (200, [Command.update "Hi"])
    ∧ update_display ["heart"] ['H', 'i'] (fun _ => false) [] (some "x") = (400, [])
    ∧ update_display ["heart"] ['H', 'i'] (fun _ => false) [] none = (400, []) := by
  obtain ⟨h1, -, -⟩ :=
    validation_precedes_enqueue ["heart"] ['H', 'i'] (fun _ => false) [] "Hi"
  obtain ⟨-, h2, h3⟩ :=
    validation_precedes_enqueue ["heart"] ['H', 'i'] (fun _ => false) [] "x"
  exact ⟨by simpa using h1 (by rfl), by simpa using h2 (fun h => nomatch h), h3⟩

/-- An update overwrites every field of the display state, so the state it
produces does not depend on the state it starts from. -/
theorem applyUpdate_irrel (s s' : DisplayState) (t : String)
    (r : Option (List Nat × Nat)) : applyUpdate s t r = applyUpdate s' t r := rfl

/-- C9.  Per-tick coalescing: draining a queue of updates ending in
`Update{last}` leaves the display state (and the canvas painted by the
last `_update_display` call of the drain) exactly as if only the last
update had been applied; the final text is `last`, and nothing of the
earlier updates of the batch survives the tick. -/
theorem per_tick_coalescing (rast : String → Option (List Nat × Nat))
    (sys : DisplayState × List (List Bool)) (earlier : List String) (last : String) :
    drain rast sys ((earlier ++ [last]).map Command.update)
      = (applyUpdate sys.1 last (rast last),
          renderFrame (applyUpdate sys.1 last (rast last)))
    ∧ (drain rast sys ((earlier ++ [last]).map Command.update)).1.text = last := by
  have key : ∀ sys' : DisplayState × List (List Bool),
      drain rast sys' ((earlier ++ [last]).map Command.update)
        = (applyUpdate sys.1 last (rast last),
            renderFrame (applyUpdate sys.1 last (rast last))) := by
    induction earlier with
    | nil =>
      intro sys'
      show processOne rast sys' (Command.update last) = _
      rw [processOne]
      simp only [applyCommand]
      rw [applyUpdate_irrel sys'.1 sys.1]
    | cons t ts ih =>
      intro sys'
      simp only [List.cons_append, List.map_cons] at *
      show drain rast (processOne rast sys' (Command.update t))
        ((ts ++ [last]).map Command.update) = _
      exact ih _
  exact ⟨key sys, by rw [key sys]; rfl⟩

/-- C10.  Implicit empty-token escape: a `:name:` token with an empty name
never causes rejection, whatever the builtin icon set, the supported
character set, and the filesystem: the per-token check accepts the empty
name outright, prepending the two-character escape `::` to any text never
changes the validation outcome, and the string `"::"` itself is always
accepted. -/
theorem empty_token_escape (b : List String) (sup : List Char) (fe : String → Bool)
    (text : String) :
    tokenCheck b fe [] = Except.ok ()
    ∧ validate_display_string b sup fe (String.mk (':' :: ':' :: text.data))
        = validate_display_string b sup fe text
    ∧ validate_display_string b sup fe "::" = Except.ok () := by
  refine ⟨rfl, ?_, rfl⟩
  have hscan : scanTokens (':' :: ':' :: text.data)
      = ([] :: (scanTokens text.data).1, (scanTokens text.data).2) := by
    simp [scanTokens, scanAux]
  rw [validate_display_string, validate_display_string]
  show (match checkTokens b fe (scanTokens (':' :: ':' :: text.data)).1 with
    | .error e => Except.error e
    | .ok _ => checkChars sup (scanTokens (':' :: ':' :: text.data)).2) = _
  rw [hscan]
  rfl

end LedDisplay
